import Mathlib

/-!
Shallow embedding of `marconiclient/queues/v1/queues.py` (the `Queue` class)
from the zaqarclient repository.

Modelling choices:

* Python dictionaries used as metadata / message payloads / filter parameters
  are association lists `List (String × String)`.  Python truthiness of a
  dictionary (`if d:`) is "the list is non-empty"; `None` is modelled by
  `Option` and is falsy.
* The collaborator modules `core`, `transport` and `transport.request` are
  not part of this source slice; their observable behaviour is supplied by an
  environment `Env` of abstract result functions, and each invocation of a
  `core.*` protocol function is recorded in a trace of `RemoteCall` values
  (these are the remote round trips this layer performs).
* Python exceptions raised by collaborators are `Except Err` results; an
  operation returns `(result, final queue state, trace)`, so state and trace
  survive an error exactly as a Python object's fields survive a raised
  exception.
-/

/-- Python dict payloads at this layer: association lists of string pairs. -/
abbrev PyDict := List (String × String)

/-- Queue metadata dictionaries. -/
abbrev Metadata := PyDict

/-- Message payloads (opaque dictionaries at this layer). -/
abbrev Msg := PyDict

/-- Filter parameters passed to `messages(**params)`. -/
abbrev Params := PyDict

/-- Result payload of `core.message_post`. -/
abbrev PostResult := PyDict

/-- Errors raised by the transport / core collaborators; this layer never
catches or translates them. -/
inductive Err : Type where
  | service (code : Nat) (msg : String)
  deriving DecidableEq, Repr

instance {ε α : Type} [DecidableEq ε] [DecidableEq α] : DecidableEq (Except ε α) := fun a b =>
  match a, b with
  | Except.ok x, Except.ok y =>
      if h : x = y then isTrue (by rw [h])
      else isFalse (by intro hh; injection hh; contradiction)
  | Except.error x, Except.error y =>
      if h : x = y then isTrue (by rw [h])
      else isFalse (by intro hh; injection hh; contradiction)
  | Except.ok _, Except.error _ => isFalse (by intro hh; injection hh)
  | Except.error _, Except.ok _ => isFalse (by intro hh; injection hh)

/-- An opaque transport handle (a live transport object is always truthy in
Python, so a present handle is never falsy). -/
structure Transport where
  handleId : Nat
  deriving DecidableEq, Repr

/-- Opaque client configuration, passed through unchanged. -/
abbrev Conf := String

/-- The owning client object, as observed by `Queue`: `conf`, `api_version`,
`api_url`, `client_uuid` and the client-wide default `transport` (which may
be absent). -/
structure Client where
  conf : Conf
  api_version : Nat
  api_url : String
  client_uuid : String
  transport : Option Transport
  deriving DecidableEq, Repr

/-- A request descriptor, as assembled by this layer: endpoint, api
name-and-version string, and headers. -/
structure Request where
  endpoint : String
  api : String
  headers : List (String × String)
  deriving DecidableEq, Repr

/-- Python dict assignment `headers[k] = v`: replace the value when the key
is present, append otherwise. -/
def Headers.set (hs : List (String × String)) (k v : String) : List (String × String) :=
  if hs.any (fun p => p.1 == k) then
    hs.map (fun p => if p.1 == k then (k, v) else p)
  else hs ++ [(k, v)]

/-- Header lookup `headers[k]`. -/
def Headers.get (hs : List (String × String)) (k : String) : Option String :=
  (hs.find? (fun p => p.1 == k)).map (fun p => p.2)

/-- Result of `core.message_list`: a response dictionary with a `messages`
field (and other fields, e.g. `links`, which this layer discards). -/
structure ListResult where
  messages : List Msg
  links : List (String × String)
  deriving DecidableEq, Repr

/-- One invocation of a `core.*` protocol-encoding function, by name and
arguments (each such invocation is one remote round trip). -/
inductive CoreCall : Type where
  | queueExists (queueId : String)
  | queueCreate (queueId : String)
  | queueDelete (queueId : String)
  | getMetadata (queueId : String)
  | setMetadata (queueId : String) (meta : Metadata)
  | messagePost (queueId : String) (msgs : List Msg)
  | messageGet (queueId : String) (messageId : String)
  | messageGetMany (queueId : String) (messageIds : List String)
  | messageList (queueId : String) (params : Params)
  deriving DecidableEq, Repr

/-- A remote call as issued: the request descriptor and transport it was
dispatched with, and the core call performed. -/
structure RemoteCall where
  req : Request
  trans : Option Transport
  call : CoreCall
  deriving DecidableEq, Repr

/-- Whether a core call is a set-metadata write. -/
def CoreCall.isSetMetadata : CoreCall → Bool
  | CoreCall.setMetadata _ _ => true
  | _ => false

/-- Whether a core call is a get-metadata fetch. -/
def CoreCall.isGetMetadata : CoreCall → Bool
  | CoreCall.getMetadata _ => true
  | _ => false

/-- Behaviour of the `core.*` collaborator functions, as abstract result
functions of the transport, request and arguments this layer passes them. -/
structure CoreEnv where
  queue_exists : Option Transport → Request → String → Except Err Bool
  queue_create : Option Transport → Request → String → Except Err Unit
  queue_delete : Option Transport → Request → String → Except Err Unit
  queue_get_metadata : Option Transport → Request → String → Except Err Metadata
  queue_set_metadata : Option Transport → Request → String → Metadata → Except Err Unit
  message_post : Option Transport → Request → String → List Msg → Except Err PostResult
  message_get : Option Transport → Request → String → String → Except Err Msg
  message_get_many : Option Transport → Request → String → List String → Except Err (List Msg)
  message_list : Option Transport → Request → String → Params → Except Err ListResult

/-- Modelled from the spec: the collaborator `transport.get_transport_for
(config, requestDescriptor) -> TransportHandle | null` (module
`marconiclient.transport`, not included in the sources) is an endpoint-aware
transport factory/lookup that may return null; its outcome is supplied here
as an abstract function of the configuration and the request, together with
the core collaborator behaviour. -/
structure Env where
  get_transport_for : Conf → Request → Option Transport
  core : CoreEnv

/-- Python truthiness of an optional dictionary field or argument: `None`
and the empty dict are falsy, a non-empty dict is truthy. -/
def pyTruthyOptDict : Option PyDict → Bool
  | none => false
  | some d => !d.isEmpty

/-- The queue handle: owning client, queue id (`self._id`) and the local
metadata cache (`self._metadata`, initially `None`). -/
structure Queue where
  client : Client
  _id : String
  _metadata : Option Metadata
  deriving DecidableEq, Repr

/-- Modelled from the spec: `request.prepare_request(conf, endpoint, api)`
(module `marconiclient.transport.request`, not included in the sources)
"constructs a base path from apiNameAndVersion ... attaches it to endpoint";
"no network I/O occurs here; purely a data-assembly step".  It is therefore a
pure constructor of a request descriptor carrying the endpoint and the api
string, with no headers set yet. -/
def prepare_request (conf : Conf) (endpoint : String) (api : String) : Request :=
  let _ := conf
  { endpoint := endpoint, api := api, headers := [] }

/-- `Queue._get_transport`: `trans = transport.get_transport_for(conf, request);
return (trans or self.client.transport)`.  A transport object is truthy and
`None` is falsy, so the endpoint-specific transport wins when present and the
client-wide default is returned otherwise. -/
def Queue.get_transport (env : Env) (q : Queue) (req : Request) : Option Transport :=
  match env.get_transport_for q.client.conf req with
  | some t => some t
  | none => q.client.transport

/-- `Queue._request_and_transport`: builds `api = 'queues.v' + str(api_version)`,
prepares the request against `client.api_url`, sets the `Client-ID` header to
`client.client_uuid`, and resolves the transport for that request.  A pure
data-assembly step: it issues no remote call. -/
def Queue.request_and_transport (env : Env) (q : Queue) : Request × Option Transport :=
  let api := "queues.v" ++ toString q.client.api_version
  let req0 := prepare_request q.client.conf q.client.api_url api
  let req : Request :=
    { req0 with headers := Headers.set req0.headers "Client-ID" q.client.client_uuid }
  (req, Queue.get_transport env q req)

/-- `Queue.exists`: existence probe, direct pass-through to
`core.queue_exists`; no caching, no state change. -/
def Queue.probeExists (env : Env) (q : Queue) :
    Except Err Bool × Queue × List RemoteCall :=
  let req := (Queue.request_and_transport env q).1
  let trans := (Queue.request_and_transport env q).2
  (env.core.queue_exists trans req q._id, q,
    [RemoteCall.mk req trans (CoreCall.queueExists q._id)])

/-- `Queue.ensure_exists`: issues `core.queue_create`; no state change. -/
def Queue.ensure_exists (env : Env) (q : Queue) :
    Except Err Unit × Queue × List RemoteCall :=
  let req := (Queue.request_and_transport env q).1
  let trans := (Queue.request_and_transport env q).2
  (env.core.queue_create trans req q._id, q,
    [RemoteCall.mk req trans (CoreCall.queueCreate q._id)])

/-- `Queue.__init__(client, queue_id, auto_create)`: stores the client and id,
initialises the metadata cache to `None`, and when `auto_create` is set calls
`ensure_exists` immediately. -/
def Queue.init (env : Env) (client : Client) (queue_id : String) (auto_create : Bool) :
    Except Err Queue × List RemoteCall :=
  let q : Queue := { client := client, _id := queue_id, _metadata := none }
  if auto_create then
    match Queue.ensure_exists env q with
    | (Except.error e, _, cs) => (Except.error e, cs)
    | (Except.ok _, q1, cs) => (Except.ok q1, cs)
  else (Except.ok q, [])

/-- The read half of `Queue.metadata` (the code after the `if new_meta:`
block): return the cache when it is truthy and no reload is forced, otherwise
fetch from the server and repopulate the cache.  `trans`, `req` and the trace
accumulated so far are threaded in from the caller. -/
def Queue.metadataRead (env : Env) (trans : Option Transport) (req : Request)
    (q : Queue) (force_reload : Bool) (calls : List RemoteCall) :
    Except Err Metadata × Queue × List RemoteCall :=
  if pyTruthyOptDict q._metadata && !force_reload then
    (Except.ok (q._metadata.getD []), q, calls)
  else
    match env.core.queue_get_metadata trans req q._id with
    | Except.error e =>
        (Except.error e, q, calls ++ [RemoteCall.mk req trans (CoreCall.getMetadata q._id)])
    | Except.ok m =>
        (Except.ok m, { q with _metadata := some m },
          calls ++ [RemoteCall.mk req trans (CoreCall.getMetadata q._id)])

/-- `Queue.metadata(new_meta=None, force_reload=False)`: when `new_meta` is
truthy, write it remotely via `core.queue_set_metadata` and store it in the
cache (write-through); then return the cache unless it is falsy or
`force_reload` is set, in which case fetch via `core.queue_get_metadata` and
repopulate the cache. -/
def Queue.metadata (env : Env) (q : Queue) (new_meta : Option Metadata)
    (force_reload : Bool) :
    Except Err Metadata × Queue × List RemoteCall :=
  let req := (Queue.request_and_transport env q).1
  let trans := (Queue.request_and_transport env q).2
  if pyTruthyOptDict new_meta then
    let nm := new_meta.getD []
    match env.core.queue_set_metadata trans req q._id nm with
    | Except.error e =>
        (Except.error e, q, [RemoteCall.mk req trans (CoreCall.setMetadata q._id nm)])
    | Except.ok _ =>
        Queue.metadataRead env trans req { q with _metadata := some nm } force_reload
          [RemoteCall.mk req trans (CoreCall.setMetadata q._id nm)]
  else
    Queue.metadataRead env trans req q force_reload []

/-- `Queue.delete`: unconditional `core.queue_delete`; performs no local
state cleanup (in particular the metadata cache is not cleared). -/
def Queue.delete (env : Env) (q : Queue) :
    Except Err Unit × Queue × List RemoteCall :=
  let req := (Queue.request_and_transport env q).1
  let trans := (Queue.request_and_transport env q).2
  (env.core.queue_delete trans req q._id, q,
    [RemoteCall.mk req trans (CoreCall.queueDelete q._id)])

/-- The argument of `Queue.post`: either a single message dict or a list of
message dicts (`isinstance(messages, list)` distinguishes them). -/
inductive PostArg : Type where
  | one (m : Msg)
  | many (ms : List Msg)
  deriving DecidableEq, Repr

/-- The `if not isinstance(messages, list): messages = [messages]`
normalization. -/
def PostArg.normalize : PostArg → List Msg
  | PostArg.one m => [m]
  | PostArg.many ms => ms

/-- `Queue.post(messages)`: normalizes a non-list argument into a one-element
list, then sends all messages in one batched `core.message_post` request and
returns its result unchanged. -/
def Queue.post (env : Env) (q : Queue) (messages : PostArg) :
    Except Err PostResult × Queue × List RemoteCall :=
  let msgs := messages.normalize
  let req := (Queue.request_and_transport env q).1
  let trans := (Queue.request_and_transport env q).2
  (env.core.message_post trans req q._id msgs, q,
    [RemoteCall.mk req trans (CoreCall.messagePost q._id msgs)])

/-- `Queue.message(message_id)`: direct pass-through to `core.message_get`. -/
def Queue.message (env : Env) (q : Queue) (message_id : String) :
    Except Err Msg × Queue × List RemoteCall :=
  let req := (Queue.request_and_transport env q).1
  let trans := (Queue.request_and_transport env q).2
  (env.core.message_get trans req q._id message_id, q,
    [RemoteCall.mk req trans (CoreCall.messageGet q._id message_id)])

/-- `Queue.messages(*messages, **params)`: when message ids are given (the
`*args` tuple is truthy), fetch them via `core.message_get_many`; otherwise
issue one `core.message_list` request and return its `messages` field. -/
def Queue.messages (env : Env) (q : Queue) (messageIds : List String)
    (params : Params) :
    Except Err (List Msg) × Queue × List RemoteCall :=
  let req := (Queue.request_and_transport env q).1
  let trans := (Queue.request_and_transport env q).2
  if !messageIds.isEmpty then
    (env.core.message_get_many trans req q._id messageIds, q,
      [RemoteCall.mk req trans (CoreCall.messageGetMany q._id messageIds)])
  else
    match env.core.message_list trans req q._id params with
    | Except.error e =>
        (Except.error e, q, [RemoteCall.mk req trans (CoreCall.messageList q._id params)])
    | Except.ok r =>
        (Except.ok r.messages, q, [RemoteCall.mk req trans (CoreCall.messageList q._id params)])

/-! Concrete fixtures used by witnesses and counterexamples. -/

/-- A concrete transport handle. -/
def transA : Transport := { handleId := 1 }

/-- A concrete client with a default transport. -/
def clientA : Client :=
  { conf := "conf", api_version := 1, api_url := "http://localhost:8888",
    client_uuid := "uuid-1", transport := some transA }

/-- A concrete core collaborator whose get-metadata returns the empty dict
and whose other calls succeed. -/
def coreA : CoreEnv :=
  { queue_exists := fun _ _ _ => Except.ok true,
    queue_create := fun _ _ _ => Except.ok (),
    queue_delete := fun _ _ _ => Except.ok (),
    queue_get_metadata := fun _ _ _ => Except.ok [],
    queue_set_metadata := fun _ _ _ _ => Except.ok (),
    message_post := fun _ _ _ _ => Except.ok [("resources", "r1")],
    message_get := fun _ _ _ _ => Except.ok [],
    message_get_many := fun _ _ _ _ => Except.ok [],
    message_list := fun _ _ _ _ => Except.ok { messages := [], links := [] } }

/-- Environment with no endpoint-specific transport and `coreA`. -/
def envA : Env := { get_transport_for := fun _ _ => none, core := coreA }

/-- A queue handle with an empty metadata cache. -/
def qA : Queue := { client := clientA, _id := "demo", _metadata := none }

/-- A queue handle whose cache holds a non-empty metadata dict. -/
def qBlue : Queue := { client := clientA, _id := "demo", _metadata := some [("color", "blue")] }

/-- Core collaborator whose get-metadata returns a non-empty dict. -/
def coreOwner : CoreEnv :=
  { coreA with queue_get_metadata := fun _ _ _ => Except.ok [("owner", "me")] }

/-- Environment built from `coreOwner`. -/
def envOwner : Env := { envA with core := coreOwner }

/-- Core collaborator whose set-metadata raises a service error. -/
def coreErr : CoreEnv :=
  { coreA with queue_set_metadata := fun _ _ _ _ => Except.error (Err.service 500 "boom") }

/-- Environment built from `coreErr`. -/
def envErr : Env := { envA with core := coreErr }

/-- Environment whose transport collaborator yields an endpoint-specific handle. -/
def envSome : Env := { envA with get_transport_for := fun _ _ => some transA }

/-- A client with no client-wide default transport. -/
def clientNoDefault : Client := { clientA with transport := none }

/-- A queue handle owned by a client with no default transport. -/
def qNoDefault : Queue := { client := clientNoDefault, _id := "demo", _metadata := none }

/-- C1 (amended): for every queue handle and every non-empty (truthy) metadata
dict `nm` whose remote write succeeds, `metadata(nm)` performs exactly one
remote call, the set-metadata write, stores `nm` in the local cache and
returns it; the immediately following no-argument `metadata()` call returns
`nm` with zero remote calls.  (The original claim, quantified over every
dict, fails at the empty dict: see the counterexample.) -/
theorem metadata_write_through (env : Env) (q : Queue) (nm : Metadata)
    (hnm : nm ≠ [])
    (hset : env.core.queue_set_metadata (Queue.request_and_transport env q).2
      (Queue.request_and_transport env q).1 q._id nm = Except.ok ()) :
    Queue.metadata env q (some nm) false =
      (Except.ok nm, { q with _metadata := some nm },
        [RemoteCall.mk (Queue.request_and_transport env q).1
          (Queue.request_and_transport env q).2 (CoreCall.setMetadata q._id nm)]) ∧
    Queue.metadata env { q with _metadata := some nm } none false =
      (Except.ok nm, { q with _metadata := some nm }, []) := by
  obtain ⟨a, l, rfl⟩ : ∃ a l, nm = a :: l := by
    cases nm with
    | nil => exact absurd rfl hnm
    | cons a l => exact ⟨a, l, rfl⟩
  constructor
  · simp [Queue.metadata, Queue.metadataRead, pyTruthyOptDict, hset]
  · simp [Queue.metadata, Queue.metadataRead, pyTruthyOptDict]

/-- C1 counterexample: passing the empty dict `{}` as `new_meta` (a metadata
dictionary, but falsy in Python) performs zero set-metadata writes instead of
exactly one, stores nothing, and simply returns the previously cached value. -/
theorem metadata_write_through_cex :
    Queue.metadata envA qBlue (some []) false =
      (Except.ok [("color", "blue")], qBlue, []) ∧
    ¬ ((Queue.metadata envA qBlue (some []) false).2.2.countP
        (fun c => CoreCall.isSetMetadata c.call) = 1) := ⟨rfl, by decide⟩

/-- C1 witness: the amended theorem applied at a concrete non-empty dict. -/
theorem metadata_write_through_witness :
    Queue.metadata envA qA (some [("k", "v")]) false =
      (Except.ok [("k", "v")], { qA with _metadata := some [("k", "v")] },
        [RemoteCall.mk (Queue.request_and_transport envA qA).1
          (Queue.request_and_transport envA qA).2
          (CoreCall.setMetadata qA._id [("k", "v")])]) :=
  (metadata_write_through envA qA [("k", "v")] (by decide) rfl).1

/-- C2 (amended): with an empty cache, a no-argument `metadata()` call
performs exactly one remote get-metadata fetch and stores the fetched value
in the cache; provided that value is non-empty (truthy), a second
no-argument call with `force_reload=False` performs zero remote calls and
returns it.  (The original claim, for every fetched value, fails when the
server returns the empty dict: see the counterexample.) -/
theorem metadata_read_populates_cache (env : Env) (q : Queue) (m : Metadata)
    (hcache : q._metadata = none)
    (hget : env.core.queue_get_metadata (Queue.request_and_transport env q).2
      (Queue.request_and_transport env q).1 q._id = Except.ok m)
    (hm : m ≠ []) :
    Queue.metadata env q none false =
      (Except.ok m, { q with _metadata := some m },
        [RemoteCall.mk (Queue.request_and_transport env q).1
          (Queue.request_and_transport env q).2 (CoreCall.getMetadata q._id)]) ∧
    Queue.metadata env { q with _metadata := some m } none false =
      (Except.ok m, { q with _metadata := some m }, []) := by
  obtain ⟨a, l, rfl⟩ : ∃ a l, m = a :: l := by
    cases m with
    | nil => exact absurd rfl hm
    | cons a l => exact ⟨a, l, rfl⟩
  constructor
  · simp [Queue.metadata, Queue.metadataRead, pyTruthyOptDict, hcache, hget]
  · simp [Queue.metadata, Queue.metadataRead, pyTruthyOptDict]

/-- C2 counterexample: when the server returns the empty dict, the first call
does populate the cache with it, but the cached empty dict is falsy, so the
second no-argument call with `force_reload=False` issues a remote fetch again
instead of zero fetches. -/
theorem metadata_read_cache_cex :
    Queue.metadata envA qA none false =
      (Except.ok [], { qA with _metadata := some [] },
        [RemoteCall.mk (Queue.request_and_transport envA qA).1
          (Queue.request_and_transport envA qA).2 (CoreCall.getMetadata "demo")]) ∧
    ¬ ((Queue.metadata envA { qA with _metadata := some [] } none false).2.2 = []) :=
  ⟨rfl, by decide⟩

/-- C2 witness: the amended theorem applied with a server returning a
non-empty metadata dict. -/
theorem metadata_read_populates_cache_witness :
    Queue.metadata envOwner qA none false =
      (Except.ok [("owner", "me")], { qA with _metadata := some [("owner", "me")] },
        [RemoteCall.mk (Queue.request_and_transport envOwner qA).1
          (Queue.request_and_transport envOwner qA).2 (CoreCall.getMetadata qA._id)]) :=
  (metadata_read_populates_cache envOwner qA [("owner", "me")] rfl rfl (by decide)).1

/-- C3: `post(m)` and `post([m])` are identical calls: same result, same
state, same single batched `message_post` payload `[m]`; in general `post`
normalizes a non-list argument into a one-element list, issues exactly one
batched `message_post` request with the normalized list, and returns the
collaborator's result unchanged. -/
theorem post_single_equals_singleton_list (env : Env) (q : Queue) (m : Msg) (arg : PostArg) :
    Queue.post env q (PostArg.one m) = Queue.post env q (PostArg.many [m]) ∧
    (Queue.post env q (PostArg.one m)).1 =
      env.core.message_post (Queue.request_and_transport env q).2
        (Queue.request_and_transport env q).1 q._id [m] ∧
    (Queue.post env q (PostArg.one m)).2.2 =
      [RemoteCall.mk (Queue.request_and_transport env q).1
        (Queue.request_and_transport env q).2 (CoreCall.messagePost q._id [m])] ∧
    (Queue.post env q arg).1 =
      env.core.message_post (Queue.request_and_transport env q).2
        (Queue.request_and_transport env q).1 q._id arg.normalize ∧
    (Queue.post env q arg).2.2 =
      [RemoteCall.mk (Queue.request_and_transport env q).1
        (Queue.request_and_transport env q).2 (CoreCall.messagePost q._id arg.normalize)] :=
  ⟨rfl, rfl, rfl, rfl, rfl⟩

/-- C4 (amended): the resolver returns the endpoint-specific transport
produced by the transport collaborator when one exists, and otherwise returns
the client-wide default transport field.  (The original claim's guarantee
fails: when the collaborator yields none and no default exists the code
returns `None` rather than being non-null or failing with
`TransportUnavailable`: see the counterexample.) -/
theorem transport_resolution (env : Env) (q : Queue) :
    (∀ t, env.get_transport_for q.client.conf (Queue.request_and_transport env q).1 = some t →
      (Queue.request_and_transport env q).2 = some t) ∧
    (env.get_transport_for q.client.conf (Queue.request_and_transport env q).1 = none →
      (Queue.request_and_transport env q).2 = q.client.transport) := by
  constructor
  · intro t h
    simp only [Queue.request_and_transport, Queue.get_transport] at h ⊢
    rw [h]
  · intro h
    simp only [Queue.request_and_transport, Queue.get_transport] at h ⊢
    rw [h]

/-- C4 witness: with an endpoint-specific transport available, the resolver
returns it. -/
theorem transport_resolution_witness :
    (Queue.request_and_transport envSome qA).2 = some transA :=
  (transport_resolution envSome qA).1 transA rfl

/-- C4 counterexample: when the transport collaborator yields none (e.g. an
unsupported endpoint scheme) and the client has no default transport, the
resolver returns `None`; it is not non-null and no `TransportUnavailable`
failure is raised by this code. -/
theorem transport_resolution_cex :
    (Queue.request_and_transport envA qNoDefault).2 = none := rfl

/-- C5: every queue operation's remote calls are dispatched with the request
assembled by `_request_and_transport`: its api string is
`"queues.v" ++ api_version`, its endpoint is the client's `api_url`, and its
`Client-ID` header is the client's `client_uuid`; each simple operation's
trace is exactly its one dispatch call (the assembly itself, a pure
function, contributes no remote call), and every call of `messages` and
`metadata` carries that same request. -/
theorem request_assembly_canonical (env : Env) (q : Queue) (nm : Option Metadata) (fr : Bool)
    (arg : PostArg) (mid : String) (mids : List String) (params : Params) :
    (Queue.request_and_transport env q).1.api = "queues.v" ++ toString q.client.api_version ∧
    (Queue.request_and_transport env q).1.endpoint = q.client.api_url ∧
    Headers.get (Queue.request_and_transport env q).1.headers "Client-ID" =
      some q.client.client_uuid ∧
    (Queue.probeExists env q).2.2 =
      [RemoteCall.mk (Queue.request_and_transport env q).1
        (Queue.request_and_transport env q).2 (CoreCall.queueExists q._id)] ∧
    (Queue.ensure_exists env q).2.2 =
      [RemoteCall.mk (Queue.request_and_transport env q).1
        (Queue.request_and_transport env q).2 (CoreCall.queueCreate q._id)] ∧
    (Queue.delete env q).2.2 =
      [RemoteCall.mk (Queue.request_and_transport env q).1
        (Queue.request_and_transport env q).2 (CoreCall.queueDelete q._id)] ∧
    (Queue.post env q arg).2.2 =
      [RemoteCall.mk (Queue.request_and_transport env q).1
        (Queue.request_and_transport env q).2 (CoreCall.messagePost q._id arg.normalize)] ∧
    (Queue.message env q mid).2.2 =
      [RemoteCall.mk (Queue.request_and_transport env q).1
        (Queue.request_and_transport env q).2 (CoreCall.messageGet q._id mid)] ∧
    ((Queue.messages env q mids params).2.2.all
      (fun c => c.req == (Queue.request_and_transport env q).1)) = true ∧
    ((Queue.metadata env q nm fr).2.2.all
      (fun c => c.req == (Queue.request_and_transport env q).1)) = true := by
  refine ⟨rfl, rfl, rfl, rfl, rfl, rfl, rfl, rfl, ?_, ?_⟩
  · simp only [Queue.messages, List.all_eq_true]
    split
    all_goals try split
    all_goals simp
  · simp only [Queue.metadata, Queue.metadataRead, List.all_eq_true]
    split
    all_goals try split
    all_goals try split
    all_goals try split
    all_goals simp

/-- C6: `exists`, `delete`, `post`, `message` and `messages` each return the
queue state unchanged; in particular none of them modifies the local
metadata cache (`delete` does not clear it, and no operation other than
`metadata` ever refreshes it). -/
theorem ops_preserve_metadata_cache (env : Env) (q : Queue) (arg : PostArg)
    (mid : String) (mids : List String) (params : Params) :
    (Queue.probeExists env q).2.1 = q ∧
    (Queue.delete env q).2.1 = q ∧
    (Queue.post env q arg).2.1 = q ∧
    (Queue.message env q mid).2.1 = q ∧
    (Queue.messages env q mids params).2.1 = q := by
  refine ⟨rfl, rfl, rfl, rfl, ?_⟩
  unfold Queue.messages
  by_cases hm : (!mids.isEmpty) = true
  · simp [hm]
  · cases h : env.core.message_list (Queue.request_and_transport env q).2
        (Queue.request_and_transport env q).1 q._id params <;> simp [hm, h]

/-- C7: for every filter-parameter set, `messages()` with no message ids
issues exactly one `message_list` remote request, whose result's `messages`
field it returns (mapping an error through unchanged); the trace is that one
call and nothing else, so no follow-up page is ever requested. -/
theorem messages_one_list_request (env : Env) (q : Queue) (params : Params) :
    Queue.messages env q [] params =
      ((env.core.message_list (Queue.request_and_transport env q).2
          (Queue.request_and_transport env q).1 q._id params).map ListResult.messages,
        q,
        [RemoteCall.mk (Queue.request_and_transport env q).1
          (Queue.request_and_transport env q).2 (CoreCall.messageList q._id params)]) := by
  unfold Queue.messages
  cases h : env.core.message_list (Queue.request_and_transport env q).2
      (Queue.request_and_transport env q).1 q._id params <;>
    simp [h, Except.map]

/-- C8: when the set-metadata collaborator raises during `metadata(nm)` with
truthy `nm`, the same error is the call's result and the queue state —
hence its metadata cache — is unchanged (the cache update happens only after
a successful write); moreover `exists`, `delete`, `post` and `message`
return the collaborator's result verbatim, so no collaborator error is ever
caught or translated by this layer. -/
theorem metadata_error_propagation (env : Env) (q : Queue) (nm : Metadata)
    (fr : Bool) (e : Err) (arg : PostArg) (mid : String)
    (hnm : nm ≠ [])
    (hset : env.core.queue_set_metadata (Queue.request_and_transport env q).2
      (Queue.request_and_transport env q).1 q._id nm = Except.error e) :
    Queue.metadata env q (some nm) fr =
      (Except.error e, q,
        [RemoteCall.mk (Queue.request_and_transport env q).1
          (Queue.request_and_transport env q).2 (CoreCall.setMetadata q._id nm)]) ∧
    (Queue.metadata env q (some nm) fr).2.1._metadata = q._metadata ∧
    (Queue.probeExists env q).1 =
      env.core.queue_exists (Queue.request_and_transport env q).2
        (Queue.request_and_transport env q).1 q._id ∧
    (Queue.delete env q).1 =
      env.core.queue_delete (Queue.request_and_transport env q).2
        (Queue.request_and_transport env q).1 q._id ∧
    (Queue.post env q arg).1 =
      env.core.message_post (Queue.request_and_transport env q).2
        (Queue.request_and_transport env q).1 q._id arg.normalize ∧
    (Queue.message env q mid).1 =
      env.core.message_get (Queue.request_and_transport env q).2
        (Queue.request_and_transport env q).1 q._id mid := by
  obtain ⟨a, l, rfl⟩ : ∃ a l, nm = a :: l := by
    cases nm with
    | nil => exact absurd rfl hnm
    | cons a l => exact ⟨a, l, rfl⟩
  have h1 : Queue.metadata env q (some (a :: l)) fr =
      (Except.error e, q,
        [RemoteCall.mk (Queue.request_and_transport env q).1
          (Queue.request_and_transport env q).2 (CoreCall.setMetadata q._id (a :: l))]) := by
    simp [Queue.metadata, pyTruthyOptDict, hset]
  exact ⟨h1, by rw [h1], rfl, rfl, rfl, rfl⟩

/-- C8 witness: the theorem applied with a collaborator whose set-metadata
raises a concrete service error. -/
theorem metadata_error_propagation_witness :
    Queue.metadata envErr qA (some [("k", "v")]) false =
      (Except.error (Err.service 500 "boom"), qA,
        [RemoteCall.mk (Queue.request_and_transport envErr qA).1
          (Queue.request_and_transport envErr qA).2
          (CoreCall.setMetadata qA._id [("k", "v")])]) :=
  (metadata_error_propagation envErr qA [("k", "v")] false (Err.service 500 "boom")
    (PostArg.many []) "m1" (by decide) rfl).1

/-- C9: passing the falsy empty dict as `new_meta` makes `metadata` behave
exactly like the no-argument read (same result, state and trace), and in
particular its trace never contains a set-metadata write, because the
implementation tests the argument's truthiness rather than its presence. -/
theorem metadata_falsy_new_meta_reads (env : Env) (q : Queue) (fr : Bool) :
    Queue.metadata env q (some []) fr = Queue.metadata env q none fr ∧
    ((Queue.metadata env q (some []) fr).2.2.all
      (fun c => !CoreCall.isSetMetadata c.call)) = true := by
  refine ⟨rfl, ?_⟩
  simp only [Queue.metadata, pyTruthyOptDict, List.isEmpty_nil, Bool.not_true,
    Bool.false_eq_true, if_false, Queue.metadataRead, List.all_eq_true]
  split
  · simp
  · split <;> simp [CoreCall.isSetMetadata]

/-- C10: with a truthy `new_meta` and `force_reload=True`, `metadata`
performs the remote write and then a remote get-metadata fetch, returns the
fetched value `g` (not `new_meta`), and leaves the cache holding `g`. -/
theorem metadata_force_reload_overrides_write (env : Env) (q : Queue) (nm g : Metadata)
    (hnm : nm ≠ [])
    (hset : env.core.queue_set_metadata (Queue.request_and_transport env q).2
      (Queue.request_and_transport env q).1 q._id nm = Except.ok ())
    (hget : env.core.queue_get_metadata (Queue.request_and_transport env q).2
      (Queue.request_and_transport env q).1 q._id = Except.ok g) :
    Queue.metadata env q (some nm) true =
      (Except.ok g, { q with _metadata := some g },
        [RemoteCall.mk (Queue.request_and_transport env q).1
          (Queue.request_and_transport env q).2 (CoreCall.setMetadata q._id nm),
         RemoteCall.mk (Queue.request_and_transport env q).1
          (Queue.request_and_transport env q).2 (CoreCall.getMetadata q._id)]) := by
  obtain ⟨a, l, rfl⟩ : ∃ a l, nm = a :: l := by
    cases nm with
    | nil => exact absurd rfl hnm
    | cons a l => exact ⟨a, l, rfl⟩
  simp [Queue.metadata, Queue.metadataRead, pyTruthyOptDict, hset, hget]

/-- C10 witness: writing `[("k","v")]` with `force_reload=True` against a
server whose get-metadata returns `[("owner","me")]` yields the fetched
value and overwrites the cache with it. -/
theorem metadata_force_reload_overrides_write_witness :
    Queue.metadata envOwner qA (some [("k", "v")]) true =
      (Except.ok [("owner", "me")], { qA with _metadata := some [("owner", "me")] },
        [RemoteCall.mk (Queue.request_and_transport envOwner qA).1
          (Queue.request_and_transport envOwner qA).2
          (CoreCall.setMetadata qA._id [("k", "v")]),
         RemoteCall.mk (Queue.request_and_transport envOwner qA).1
          (Queue.request_and_transport envOwner qA).2
          (CoreCall.getMetadata qA._id)]) :=
  metadata_force_reload_overrides_write envOwner qA [("k", "v")] [("owner", "me")]
    (by decide) rfl rfl
